import Mathlib

/-!
# Verification of the Kuzzle JavaScript SDK core (offline queue, reconnection,
# realtime observer, search cursor)

Shallow embedding of the request-lifecycle and synchronization engine of the
SDK, translated from `src/src/Kuzzle.ts` (query dispatcher, offline queue,
connection state machine) and from the realtime `Observer` class
(`src/unnamed/part_004`).  JavaScript objects used as string-keyed maps are
embedded as association lists; the heap (needed to model aliasing between a
request's `volatile` object and the SDK-wide defaults) is embedded as a
function from addresses to objects.  Fallible JavaScript code (code that can
throw) is embedded with `Except`.
-/

set_option maxRecDepth 10000

namespace KuzzleSdk

/-- JSON-representable JavaScript values, as produced by
`JSON.parse(JSON.stringify(req))` in `Kuzzle.query` (so `undefined` cannot
occur as a stored value: absence of a key models `undefined`). -/
inductive JSValue where
  | null
  | bool (b : Bool)
  | num (n : Int)
  | str (s : String)
  deriving DecidableEq, Repr

/-- JavaScript truthiness of a `JSValue` (`null`, `false`, `0` and the empty
string are falsy). -/
def JSValue.truthy : JSValue → Bool
  | .null => false
  | .bool b => b
  | .num n => n != 0
  | .str s => s != ""

/-- A JavaScript object used as a string-keyed map, embedded as an
association list in property insertion order. -/
abbrev JSMap (β : Type) : Type := List (String × β)

instance {ε α : Type} [DecidableEq ε] [DecidableEq α] :
    DecidableEq (Except ε α) := fun a b =>
  match a, b with
  | .ok x, .ok y =>
    if h : x = y then isTrue (by rw [h])
    else isFalse (by intro hh; cases hh; exact h rfl)
  | .ok _, .error _ => isFalse (by intro hh; cases hh)
  | .error _, .ok _ => isFalse (by intro hh; cases hh)
  | .error x, .error y =>
    if h : x = y then isTrue (by rw [h])
    else isFalse (by intro hh; cases hh; exact h rfl)

namespace JSMap

/-- Property read `m[k]`: `none` models `undefined` (the key is absent). -/
def lookupKey {β : Type} : JSMap β → String → Option β
  | [], _ => none
  | (k', v') :: rest, k => if k' = k then some v' else lookupKey rest k

/-- Property write `m[k] = v`: replaces the binding in place if the key
exists, appends it otherwise (JavaScript objects keep insertion order). -/
def setKey {β : Type} : JSMap β → String → β → JSMap β
  | [], k, v => [(k, v)]
  | (k', v') :: rest, k, v =>
    if k' = k then (k, v) :: rest else (k', v') :: setKey rest k v

/-- Property deletion `delete m[k]` / `Map.delete(k)`. -/
def removeKey {β : Type} : JSMap β → String → JSMap β
  | [], _ => []
  | (k', v') :: rest, k =>
    if k' = k then removeKey rest k else (k', v') :: removeKey rest k

/-- `Object.keys(m)` (may repeat keys only if the map was built with raw
`cons`; maps built through `setKey` keep keys unique). -/
def keys {β : Type} (m : JSMap β) : List String := m.map Prod.fst

end JSMap

open JSMap

/-- A JavaScript object holding JSON values. -/
abbrev JSObj : Type := JSMap JSValue

/-- A heap of JavaScript objects.  The heap is needed to model reference
semantics: in `Kuzzle.query`, `request.volatile = this.volatile` makes the
request's volatile object and the SDK-wide default volatile object the very
same object, so writes through one are visible through the other. -/
structure JSObjStore where
  heap : Nat → JSObj
  nextRef : Nat

/-- Dereference. -/
def getObj (st : JSObjStore) (r : Nat) : JSObj := st.heap r

/-- Overwrite the object at an address. -/
def setObj (st : JSObjStore) (r : Nat) (m : JSObj) : JSObjStore :=
  { st with heap := fun i => if i = r then m else st.heap i }

/-- Allocate a fresh object (models `JSON.parse(JSON.stringify(...))`
producing a new object). -/
def allocObj (st : JSObjStore) (m : JSObj) : JSObjStore × Nat :=
  ({ heap := fun i => if i = st.nextRef then m else st.heap i,
     nextRef := st.nextRef + 1 }, st.nextRef)

def sdkInstanceIdKey : String := "sdkInstanceId"

def sdkNameKey : String := "sdkName"

/-- The defaults-merge loop of `Kuzzle.query` (Kuzzle.ts:850-854):
`for (const item of Object.keys(this.volatile)) { if (request.volatile[item] === undefined) { request.volatile[item] = this.volatile[item]; } }`.
`kuzzleRef` is the address of `this.volatile`, `reqRef` the address of
`request.volatile` (the two coincide when the request carried no volatile),
and the key list is the `Object.keys` snapshot. -/
def mergeDefaults (kuzzleRef reqRef : Nat) : JSObjStore → List String → JSObjStore
  | store, [] => store
  | store, k :: ks =>
    match lookupKey (getObj store reqRef) k with
    | some _ => mergeDefaults kuzzleRef reqRef store ks
    | none =>
      let dv := (lookupKey (getObj store kuzzleRef) k).getD JSValue.null
      mergeDefaults kuzzleRef reqRef
        (setObj store reqRef (setKey (getObj store reqRef) k dv)) ks

/-- One marker assignment of `Kuzzle.query` (Kuzzle.ts:855-857):
`request.volatile.k = request.volatile.k || fallback` — note the JavaScript
`||`: a falsy existing value (null, false, 0, empty string) is replaced by
the fallback, a truthy one is kept. -/
def setMarker (store : JSObjStore) (reqRef : Nat) (k : String)
    (fallback : JSValue) : JSObjStore :=
  let reqVol := getObj store reqRef
  let newV :=
    match lookupKey reqVol k with
    | some v => if v.truthy then v else fallback
    | none => fallback
  setObj store reqRef (setKey reqVol k newV)

/-- The volatile-handling phase of `Kuzzle.query` (Kuzzle.ts:837-857).
`callerVolatile = none` models a (deep-copied) request without a `volatile`
field: the code then executes `request.volatile = this.volatile`, aliasing
the SDK-wide defaults.  `callerVolatile = some m` models a request whose
deep copy carried its own fresh volatile object `m`.  Returns the new heap
and the address of the dispatched request's volatile object. -/
def queryVolatile (store0 : JSObjStore) (kuzzleRef : Nat)
    (callerVolatile : Option JSObj) (protocolId sdkNameVal : JSValue) :
    JSObjStore × Nat :=
  let alloc :=
    match callerVolatile with
    | none => (store0, kuzzleRef)
    | some m => allocObj store0 m
  let store1 := alloc.1
  let reqRef := alloc.2
  let ks := keys (getObj store1 kuzzleRef)
  let store2 := mergeDefaults kuzzleRef reqRef store1 ks
  let store3 := setMarker store2 reqRef sdkInstanceIdKey protocolId
  let store4 := setMarker store3 reqRef sdkNameKey sdkNameVal
  (store4, reqRef)

/-- Contents of the dispatched request's volatile object after
`queryVolatile`. -/
def dispatchedVolatile (store0 : JSObjStore) (kuzzleRef : Nat)
    (callerVolatile : Option JSObj) (protocolId sdkNameVal : JSValue) : JSObj :=
  let res := queryVolatile store0 kuzzleRef callerVolatile protocolId sdkNameVal
  getObj res.1 res.2

/-- Contents of the SDK-wide default volatile object (`kuzzle.volatile`)
after `queryVolatile`. -/
def defaultsAfterQuery (store0 : JSObjStore) (kuzzleRef : Nat)
    (callerVolatile : Option JSObj) (protocolId sdkNameVal : JSValue) : JSObj :=
  getObj (queryVolatile store0 kuzzleRef callerVolatile protocolId sdkNameVal).1
    kuzzleRef

/-! ## Offline queue (Kuzzle.ts: `_cleanQueue`, `query`, `_dequeue`,
`playQueue`) -/

def ttlMsg : String :=
  "Query aborted: queued time exceeded the queueTTL option value"

def maxSizeMsg : String :=
  "Query aborted: too many queued requests (see the queueMaxSize option)"

def invalidQueueMsg : String :=
  "Invalid offline queue request. One or more missing properties: requestId, action, controller."

def emptyString : String := ""

/-- The parts of a queued request payload relevant to the offline queue:
`requestId` is `none` when the property is `undefined` (the JavaScript check
is `=== undefined`), `controller`/`action` are the empty string when absent
or empty (the JavaScript checks are truthiness checks), and `tag`
distinguishes otherwise-identical payloads (it stands for the rest of the
request body). -/
structure QRequest where
  requestId : Option String
  controller : String
  action : String
  tag : Nat
  deriving DecidableEq, Repr

/-- An offline-queue entry as pushed by `Kuzzle.query` (Kuzzle.ts:867-875):
the request, the enqueue timestamp `ts` and the per-request timeout (the
resolve/reject continuations are represented by the rejection events
below).  `request` is an `Option` because loader-injected entries may lack
it. -/
structure OfflineEntry where
  request : Option QRequest
  ts : Int
  timeout : Int
  deriving DecidableEq, Repr

/-- Observable queue effects: emitted SDK events, promise rejections and
transport sends. -/
inductive QEvent where
  | offlineQueuePush (r : Option QRequest)
  | offlineQueuePop (r : Option QRequest)
  | rejected (r : Option QRequest) (msg : String)
  | sent (r : Option QRequest)
  deriving DecidableEq, Repr

/-- The indexed `forEach` of `_cleanQueue` (Kuzzle.ts:1005-1009):
`lastDocumentIndex` is overwritten with the index of every entry whose
timestamp is older than `now - queueTTL`, so it ends as the index of the
last such entry, or `-1` if there is none. -/
def lastExpiredIndexAux (now queueTTL : Int) :
    List OfflineEntry → Int → Int → Int
  | [], _, acc => acc
  | e :: rest, i, acc =>
    lastExpiredIndexAux now queueTTL rest (i + 1)
      (if e.ts < now - queueTTL then i else acc)

def lastExpiredIndex (now queueTTL : Int) (q : List OfflineEntry) : Int :=
  lastExpiredIndexAux now queueTTL q 0 (-1)

/-- Per dropped entry, `_cleanQueue` emits `offlineQueuePop` and rejects the
entry's promise with the given error message (Kuzzle.ts:1012-1021 and
1026-1035). -/
def popRejectEvents (dropped : List OfflineEntry) (msg : String) :
    List QEvent :=
  dropped.flatMap fun e =>
    [QEvent.offlineQueuePop e.request, QEvent.rejected e.request msg]

/-- The TTL rule of `_cleanQueue` (Kuzzle.ts:1004-1023), active only when
`queueTTL > 0`: `splice(0, lastDocumentIndex + 1)` removes the contiguous
prefix up to and including the last entry whose timestamp is older than
`now - queueTTL`.  Returns (remaining queue, spliced-off entries). -/
def ttlSplice (now queueTTL : Int) (q : List OfflineEntry) :
    List OfflineEntry × List OfflineEntry :=
  if queueTTL > 0 then
    let li := lastExpiredIndex now queueTTL q
    if li = -1 then (q, [])
    else (q.drop (li + 1).toNat, q.take (li + 1).toNat)
  else (q, [])

/-- The max-size rule of `_cleanQueue` (Kuzzle.ts:1025-1036), active only
when `queueMaxSize > 0` and the queue is strictly longer than
`queueMaxSize`: `splice(0, length - queueMaxSize)` removes the oldest
excess entries.  Returns (remaining queue, spliced-off entries). -/
def sizeSplice (queueMaxSize : Int) (q1 : List OfflineEntry) :
    List OfflineEntry × List OfflineEntry :=
  if queueMaxSize > 0 ∧ (q1.length : Int) > queueMaxSize then
    (q1.drop (q1.length - queueMaxSize.toNat),
     q1.take (q1.length - queueMaxSize.toNat))
  else (q1, [])

/-- `Kuzzle._cleanQueue` (Kuzzle.ts:1000-1037): the TTL rule, then the
max-size rule on what is left.  Returns the remaining queue, the entries
dropped by the TTL rule, the entries dropped by the max-size rule, and the
emitted events (an `offlineQueuePop` plus a promise rejection per drop). -/
def cleanQueueFull (now queueTTL queueMaxSize : Int) (q : List OfflineEntry) :
    List OfflineEntry × List OfflineEntry × List OfflineEntry × List QEvent :=
  let ts := ttlSplice now queueTTL q
  let ss := sizeSplice queueMaxSize ts.1
  (ss.1, ts.2, ss.2,
   popRejectEvents ts.2 ttlMsg ++ popRejectEvents ss.2 maxSizeMsg)

/-- `_cleanQueue` restricted to its remaining queue and events. -/
def cleanQueue (now queueTTL queueMaxSize : Int) (q : List OfflineEntry) :
    List OfflineEntry × List QEvent :=
  let r := cleanQueueFull now queueTTL queueMaxSize q
  (r.1, r.2.2.2)

/-- Queue left after `_cleanQueue`. -/
def cleanRemaining (now queueTTL queueMaxSize : Int)
    (q : List OfflineEntry) : List OfflineEntry :=
  (cleanQueueFull now queueTTL queueMaxSize q).1

/-- Entries dropped by `_cleanQueue`'s TTL rule. -/
def cleanTTLDropped (now queueTTL queueMaxSize : Int)
    (q : List OfflineEntry) : List OfflineEntry :=
  (cleanQueueFull now queueTTL queueMaxSize q).2.1

/-- Entries dropped by `_cleanQueue`'s max-size rule. -/
def cleanSizeDropped (now queueTTL queueMaxSize : Int)
    (q : List OfflineEntry) : List OfflineEntry :=
  (cleanQueueFull now queueTTL queueMaxSize q).2.2.1

/-- Events emitted by `_cleanQueue`. -/
def cleanEvents (now queueTTL queueMaxSize : Int)
    (q : List OfflineEntry) : List QEvent :=
  (cleanQueueFull now queueTTL queueMaxSize q).2.2.2

/-- The queuing branch of `Kuzzle.query` (Kuzzle.ts:861-875): `_cleanQueue`
runs first, then `offlineQueuePush` is emitted and the new entry is pushed
(note the order: the new entry is appended only after the clean-up). -/
def enqueue (now queueTTL queueMaxSize : Int) (q : List OfflineEntry)
    (r : QRequest) (timeout : Int) : List OfflineEntry × List QEvent :=
  let c := cleanQueue now queueTTL queueMaxSize q
  (c.1 ++ [{ request := some r, ts := now, timeout := timeout }],
   c.2 ++ [QEvent.offlineQueuePush (some r)])

/-- The `dequeuingProcess` closure of `Kuzzle._dequeue` (Kuzzle.ts:1044-1059):
while the queue is non-empty, send the head entry's request through the
transport, emit `offlineQueuePop`, shift the entry off the queue, and
recurse (after the replay interval). -/
def dequeuingProcess : List OfflineEntry → List QEvent
  | [] => []
  | e :: rest =>
    QEvent.sent e.request :: QEvent.offlineQueuePop e.request ::
      dequeuingProcess rest

/-- `Kuzzle.playQueue` (Kuzzle.ts:913-919): only when the transport is
ready, run `_cleanQueue` then `_dequeue` (here: the no-loader path of
`_dequeue`, which runs `dequeuingProcess` directly).  Returns the final
queue and the emitted events. -/
def playQueue (isReady : Bool) (now queueTTL queueMaxSize : Int)
    (q : List OfflineEntry) : List OfflineEntry × List QEvent :=
  if isReady then
    let c := cleanQueue now queueTTL queueMaxSize q
    ([], c.2 ++ dequeuingProcess c.1)
  else (q, [])

/-- Validity of a queue entry per the checks of `_dequeue`'s loader filter
(Kuzzle.ts:1076-1086): the entry must have a `request` whose `requestId` is
not `undefined` and whose `action` and `controller` are truthy. -/
def validEntry (e : OfflineEntry) : Bool :=
  match e.request with
  | none => false
  | some r =>
    r.requestId.isSome && !(r.action == emptyString) &&
      !(r.controller == emptyString)

/-- The `filter` of `Kuzzle._dequeue`'s loader path (Kuzzle.ts:1073-1094),
run over `additionalQueue.concat(this.offlineQueue)` with the shared
`uniqueQueue` seen-set: throws (fails the whole replay) at the first entry
missing `request`/`requestId`/`action`/`controller`, drops entries whose
`requestId` was already seen, and keeps first occurrences. -/
def filterUniqueQueue :
    List OfflineEntry → List String → Except String (List OfflineEntry)
  | [], _ => .ok []
  | e :: rest, seen =>
    match e.request with
    | none => .error invalidQueueMsg
    | some r =>
      match r.requestId with
      | none => .error invalidQueueMsg
      | some rid =>
        if r.action = emptyString ∨ r.controller = emptyString then
          .error invalidQueueMsg
        else if rid ∈ seen then filterUniqueQueue rest seen
        else
          Except.map (fun tail => e :: tail)
            (filterUniqueQueue rest (rid :: seen))

/-- The queue produced by `Kuzzle._dequeue` when an `offlineQueueLoader` is
configured (Kuzzle.ts:1069-1096): the loaded batch is concatenated in front
of the live offline queue and the whole concatenation is filtered. -/
def mergeLoadedQueue (additionalQueue liveQueue : List OfflineEntry) :
    Except String (List OfflineEntry) :=
  filterUniqueQueue (additionalQueue ++ liveQueue) []

/-- First-occurrence-wins deduplication by `requestId` over a whole
sequence, stated from the amended claim's words for comparison with
`filterUniqueQueue` (entries without a `requestId` are kept as-is; they
cannot occur once validity holds). -/
def firstWins : List OfflineEntry → List String → List OfflineEntry
  | [], _ => []
  | e :: rest, seen =>
    match e.request with
    | some r =>
      match r.requestId with
      | some rid =>
        if rid ∈ seen then firstWins rest seen
        else e :: firstWins rest (rid :: seen)
      | none => e :: firstWins rest seen
    | none => e :: firstWins rest seen

/-- Projection of transport sends out of the event trace. -/
def sentRequest? : QEvent → Option (Option QRequest)
  | QEvent.sent r => some r
  | _ => none

/-- Projection of `offlineQueuePop` emissions out of the event trace. -/
def popRequest? : QEvent → Option (Option QRequest)
  | QEvent.offlineQueuePop r => some r
  | _ => none

/-! ## Connection state machine (Kuzzle.ts: `connect`, `_reconnect`,
`tryReAuthenticate`, `authenticate`, `disconnect`) -/

/-- SDK events relevant to reconnection. -/
inductive SdkEvent where
  | reconnected
  | reconnectionError
  | reAuthenticated
  | playQueueRun
  deriving DecidableEq, Repr

/-- Connection-state fields of the `Kuzzle` instance, plus a
`protocolClosed` flag recording that `protocol.close()` was called
(`disconnect`). -/
structure KState where
  loggedIn : Bool
  queuing : Bool
  autoQueue : Bool
  autoReplay : Bool
  reconnectInProgress : Bool
  protocolClosed : Bool
  deriving DecidableEq, Repr

/-- Outcomes of the asynchronous collaborators of re-authentication:
`checkToken` is the result of `isAuthenticated()` (which can itself
reject), `runAuthenticator` the result of calling the configured
authenticator, `checkTokenAfterAuth` the result of the re-validation inside
`authenticate()`. -/
structure ReconnectEnv where
  checkToken : Except Unit Bool
  hasAuthenticator : Bool
  runAuthenticator : Except Unit Unit
  checkTokenAfterAuth : Except Unit Bool
  deriving DecidableEq, Repr

/-- `Kuzzle.authenticate` (Kuzzle.ts:701-717).  Errors carry the state at
the throw, because the `_loggedIn` mutation persists past the exception in
the source. -/
def authenticate (env : ReconnectEnv) (st : KState) : Except KState KState :=
  if !env.hasAuthenticator then .error st
  else
    match env.runAuthenticator with
    | .error _ => .error st
    | .ok _ =>
      match env.checkTokenAfterAuth with
      | .error _ => .error st
      | .ok valid =>
        let st' := { st with loggedIn := valid }
        if valid then .ok st' else .error st'

/-- The `try` block of `Kuzzle.tryReAuthenticate` (Kuzzle.ts:660-690):
check the token; if valid succeed; if invalid and no authenticator is set,
emit `reconnectionError` and resolve `false`; otherwise run
`authenticate()`. -/
def tryReAuthenticateBody (env : ReconnectEnv) (st : KState) :
    Except KState (Bool × KState × List SdkEvent) :=
  match env.checkToken with
  | .error _ => .error st
  | .ok valid =>
    if valid then .ok (true, st, [])
    else if !env.hasAuthenticator then
      .ok (false, st, [SdkEvent.reconnectionError])
    else
      match authenticate env st with
      | .ok st' => .ok (true, st', [])
      | .error st' => .error st'

/-- `Kuzzle.tryReAuthenticate` (Kuzzle.ts:658-694): sets
`_reconnectInProgress`, runs the body, catches every exception (emitting
`reconnectionError` and resolving `false`), and finally clears
`_reconnectInProgress`. -/
def tryReAuthenticate (env : ReconnectEnv) (st0 : KState) :
    Bool × KState × List SdkEvent :=
  let st := { st0 with reconnectInProgress := true }
  match tryReAuthenticateBody env st with
  | .ok (b, st', evs) => (b, { st' with reconnectInProgress := false }, evs)
  | .error st' =>
    (false, { st' with reconnectInProgress := false },
      [SdkEvent.reconnectionError])

/-- The promise returned by `tryReAuthenticate` as its caller sees it: the
catch-all handler turns every exception of the body into a `false`
resolution, so this `Except` is `.ok` by construction of the catch — the
theorem below checks that no body outcome escapes it. -/
def tryReAuthenticateResult (env : ReconnectEnv) (st0 : KState) :
    Except KState (Bool × KState × List SdkEvent) :=
  let st := { st0 with reconnectInProgress := true }
  match tryReAuthenticateBody env st with
  | .ok (b, st', evs) => .ok (b, { st' with reconnectInProgress := false }, evs)
  | .error st' =>
    .ok (false, { st' with reconnectInProgress := false },
      [SdkEvent.reconnectionError])

/-- Tail of `_reconnect` after a successful (or unnecessary)
re-authentication (Kuzzle.ts:641-645): optionally replay the queue, then
emit `reconnected`. -/
def reconnectFinish (st : KState) (evs : List SdkEvent) :
    KState × List SdkEvent :=
  if st.autoReplay then
    (st, evs ++ [SdkEvent.playQueueRun, SdkEvent.reconnected])
  else (st, evs ++ [SdkEvent.reconnected])

/-- `Kuzzle._reconnect` (Kuzzle.ts:623-646): guarded by
`_reconnectInProgress`; stops queuing when auto-queue is on; if a user was
logged in and `tryReAuthenticate` resolves `false`, force logout and a full
disconnect (`disconnect()` sets `_loggedIn = false` and calls
`protocol.close()`) and return — no replay, no `reconnected` event. -/
def reconnect (env : ReconnectEnv) (st0 : KState) : KState × List SdkEvent :=
  if st0.reconnectInProgress then (st0, [])
  else
    let st1 := if st0.autoQueue then { st0 with queuing := false } else st0
    if st1.loggedIn then
      match tryReAuthenticate env st1 with
      | (true, st2, evs) => reconnectFinish st2 evs
      | (false, st2, evs) =>
        ({ st2 with loggedIn := false, protocolClosed := true }, evs)
    else reconnectFinish st1 []

/-! ## `Kuzzle.connect` listener registration (Kuzzle.ts:569-621) -/

/-- The transport listener names registered by `connect()` past the
`isReady` guard, in registration order. -/
def transportListeners : List String :=
  ["queryError", "tokenExpired", "connect", "networkError", "disconnect",
   "reconnect", "discarded", "websocketRenewalStart", "websocketRenewalDone"]

/-- The state `connect()` touches synchronously: the queuing flag and the
multiset of listener registrations made on the transport (`listeners`
records one element per `protocol.addListener` call). -/
structure ConnectState where
  queuing : Bool
  autoQueue : Bool
  listeners : List String
  deriving DecidableEq, Repr

/-- `Kuzzle.connect` (Kuzzle.ts:569-621), restricted to its synchronous
effects: if the transport is already ready it returns at once; otherwise it
starts queuing when auto-queue is enabled and registers the transport event
listeners — one `addListener` call per name, every time this branch runs. -/
def connect (isReady : Bool) (st : ConnectState) : ConnectState :=
  if isReady then st
  else
    let st1 := if st.autoQueue then { st with queuing := true } else st
    { st1 with listeners := st1.listeners ++ transportListeners }

/-! ## Realtime document `Observer` (src/unnamed/part_004) -/

/-- `collectionUrn` (part_004:53-55). -/
def collectionUrn (index collection : String) : String :=
  index ++ ":" ++ collection

/-- `documentUrn` (part_004:46-48). -/
def documentUrn (index collection docId : String) : String :=
  index ++ ":" ++ collection ++ ":" ++ docId

/-- A `RealtimeDocument`: id, mutable content snapshot and deleted flag. -/
structure RtDoc where
  _id : String
  _source : JSObj
  deleted : Bool
  deriving DecidableEq, Repr

/-- An `ObservedDocuments` bucket: the set of observed document ids of one
collection (a JavaScript `Set`, kept in insertion order) plus the room id
of its realtime subscription. -/
structure ObservedDocuments where
  ids : List String
  roomId : Option String
  deriving DecidableEq, Repr

/-- The `Observer`'s state: `documentsByCollection` maps collection URNs to
buckets, `documents` maps document URNs to realtime documents
(part_004:92-102). -/
structure ObserverState where
  documentsByCollection : JSMap ObservedDocuments
  documents : JSMap RtDoc
  deriving DecidableEq, Repr

/-- Realtime engine calls issued by the observer. -/
inductive RtAction where
  | subscribe (index collection : String) (idValues : List String)
  | unsubscribe (roomId : String)
  deriving DecidableEq, Repr

/-- `Set.add`: insertion-ordered, duplicate-free. -/
def addId (ids : List String) (docId : String) : List String :=
  if docId ∈ ids then ids else ids ++ [docId]

/-- `Observer.resubscribe` (part_004:349-378): nothing to do when the
collection has no bucket; tear the room down when the bucket is empty;
otherwise subscribe with the current id-list filter and only then
unsubscribe the previous room.  `newRoomId` is the room id the realtime
subscribe resolves with. -/
def resubscribe (newRoomId : String) (index collection : String)
    (st : ObserverState) : ObserverState × List RtAction :=
  match lookupKey st.documentsByCollection (collectionUrn index collection) with
  | none => (st, [])
  | some sub =>
    if sub.ids.isEmpty then
      match sub.roomId with
      | some rid => (st, [RtAction.unsubscribe rid])
      | none => (st, [])
    else
      let byColl :=
        setKey st.documentsByCollection (collectionUrn index collection)
          { sub with roomId := some newRoomId }
      let st' := { st with documentsByCollection := byColl }
      match sub.roomId with
      | some oldRid =>
        (st', [RtAction.subscribe index collection sub.ids,
               RtAction.unsubscribe oldRid])
      | none => (st', [RtAction.subscribe index collection sub.ids])

/-- `Observer.addDocument` (part_004:325-341): create the realtime
document, create the bucket if needed, add the id to it, and register the
document under its URN. -/
def addDocument (index collection docId : String) (src : JSObj)
    (st : ObserverState) : ObserverState × RtDoc :=
  let rtDocument : RtDoc := { _id := docId, _source := src, deleted := false }
  let urn := collectionUrn index collection
  let byColl :=
    match lookupKey st.documentsByCollection urn with
    | none =>
      setKey st.documentsByCollection urn { ids := [docId], roomId := none }
    | some sub =>
      setKey st.documentsByCollection urn
        { sub with ids := addId sub.ids docId }
  let docs := setKey st.documents (documentUrn index collection docId) rtDocument
  ({ documentsByCollection := byColl, documents := docs }, rtDocument)

/-- `Observer.observe` (part_004:307-316): add the document, then
resubscribe its collection. -/
def observe (newRoomId index collection docId : String) (src : JSObj)
    (st : ObserverState) : ObserverState × RtDoc × List RtAction :=
  let a := addDocument index collection docId src st
  let r := resubscribe newRoomId index collection a.1
  (r.1, a.2, r.2)

/-- A document notification as consumed by the observer
(`{ index, collection, event, result: { _id, _source } }`). -/
structure DocumentNotification where
  index : String
  collection : String
  event : String
  resultId : String
  resultSource : JSObj
  deriving DecidableEq, Repr

def writeEventName : String := "write"

def deleteEventName : String := "delete"

/-- `Object.assign(target, src)`: copy every property of `src` into
`target`, in order, overwriting. -/
def objectAssign (target src : JSObj) : JSObj :=
  src.foldl (fun acc kv => setKey acc kv.1 kv.2) target

/-- `Observer.notificationHandler` (part_004:385-413).  `.error ()` marks
the places where the source throws a `TypeError` by dereferencing an
`undefined` lookup (`rtDocument._source`, `rtDocument.deleted = true`,
`observedDocuments.delete`).  On success, returns the new state, the
realtime-engine calls issued, and the in-place-mutated realtime document
(shared by reference with the application) when one was mutated.  Note the
order on `delete`: the document and (when the bucket becomes empty) the
bucket are removed from the maps before `resubscribe` is called. -/
def notificationHandler (n : DocumentNotification) (newRoomId : String)
    (st : ObserverState) :
    Except Unit (ObserverState × List RtAction × Option RtDoc) :=
  let urn := documentUrn n.index n.collection n.resultId
  let rtDocument? := lookupKey st.documents urn
  if n.event ≠ deleteEventName then
    if n.event = writeEventName then
      match rtDocument? with
      | none => .error ()
      | some d =>
        let d' := { d with _source := objectAssign d._source n.resultSource }
        .ok ({ st with documents := setKey st.documents urn d' }, [], some d')
    else .ok (st, [], none)
  else
    match rtDocument? with
    | none => .error ()
    | some d =>
      let d' := { d with deleted := true }
      let docs := removeKey st.documents (documentUrn n.index n.collection d'._id)
      match lookupKey st.documentsByCollection
          (collectionUrn n.index n.collection) with
      | none => .error ()
      | some sub =>
        let sub' := { sub with ids := sub.ids.erase n.resultId }
        let byColl :=
          if sub'.ids.isEmpty then
            removeKey st.documentsByCollection
              (collectionUrn n.index n.collection)
          else
            setKey st.documentsByCollection
              (collectionUrn n.index n.collection) sub'
        let st' : ObserverState :=
          { documentsByCollection := byColl, documents := docs }
        let res := resubscribe newRoomId n.index n.collection st'
        .ok (res.1, res.2, some d')

/-! ## Search result cursor (`SearchResultBase.next`) -/

/-- The state a search cursor captures: current-page counts, the captured
originating request's pagination fields, and the controller/action names
(src/test/core/searchResult/specifications.test.js, constructor test). -/
structure SearchCursor where
  total : Int
  fetched : Int
  controller : String
  searchAction : String
  scrollAction : String
  scroll : Option String
  scrollId : Option String
  size : Option Int
  from_ : Option Int
  hasSort : Bool
  body : JSValue
  deriving DecidableEq, Repr

/-- The request `next()` would dispatch for the following page. -/
structure NextQuery where
  controller : String
  action : String
  scroll : Option String
  scrollId : Option String
  size : Option Int
  from_ : Option Int
  searchAfter : Bool
  body : Option JSValue
  deriving DecidableEq, Repr

/-- Outcome of `next()`: resolve `null` without a network call, dispatch a
follow-up request, or reject with the cannot-paginate error. -/
inductive NextOutcome where
  | noMore
  | sendRequest (q : NextQuery)
  | cannotPaginate
  deriving DecidableEq, Repr

/-- Modelled from the spec: `SearchResultBase.next` is not among the source
files under src/ — only its unit tests
(src/test/core/searchResult/specifications.test.js) are.  The branch
structure and the scroll/sort branches follow spec section 4.4, including
the spec's from/size termination condition (`from + size >= total`).  The
resubmitted `from` value of the from/size branch is taken from the
repository's own test: with a first page of 2 hits, `from=2`, `size=2`,
`total=30`, the test asserts that the follow-up query carries `from: 2` —
the number of hits already fetched — not `from + size = 4`. -/
def next (c : SearchCursor) : NextOutcome :=
  if c.fetched ≥ c.total then .noMore
  else
    match c.scroll with
    | some s =>
      .sendRequest
        { controller := c.controller
          action := c.scrollAction
          scroll := some s
          scrollId := c.scrollId
          size := none
          from_ := none
          searchAfter := false
          body := none }
    | none =>
      match c.size with
      | some sz =>
        if sz != 0 then
          if c.hasSort then
            .sendRequest
              { controller := c.controller
                action := c.searchAction
                scroll := none
                scrollId := none
                size := some sz
                from_ := c.from_
                searchAfter := true
                body := some c.body }
          else
            match c.from_ with
            | some f =>
              if f + sz ≥ c.total then .noMore
              else
                .sendRequest
                  { controller := c.controller
                    action := c.searchAction
                    scroll := none
                    scrollId := none
                    size := some sz
                    from_ := some c.fetched
                    searchAfter := false
                    body := some c.body }
            | none => .cannotPaginate
        else .cannotPaginate
      | none => .cannotPaginate

/-! ## Concrete instances used to evaluate the embedded code -/

def protoIdStr : String := "proto-1"

def sdkNameStr : String := "js-7.4.2"

/-- A concrete `protocol.id`. -/
def protoIdVal : JSValue := JSValue.str protoIdStr

/-- A concrete `this.sdkName`. -/
def sdkNameVal : JSValue := JSValue.str sdkNameStr

/-- A heap whose object 0 is the SDK-wide volatile defaults (empty). -/
def c6Store : JSObjStore where
  heap := fun _ => []
  nextRef := 1

/-- A caller-supplied volatile map carrying `sdkName: null` — a falsy but
present caller value. -/
def c6CallerVolatile : JSObj := [(sdkNameKey, JSValue.null)]

def fooKey : String := "foo"

/-- A caller-supplied volatile map with an ordinary key. -/
def c6wCaller : JSObj := [(fooKey, JSValue.num 42)]

/-- Reconnection environment: invalid token, no authenticator. -/
def c4Env : ReconnectEnv where
  checkToken := .ok false
  hasAuthenticator := false
  runAuthenticator := .ok ()
  checkTokenAfterAuth := .ok false

/-- A previously-logged-in SDK state about to handle a `reconnect` event. -/
def c4State : KState where
  loggedIn := true
  queuing := true
  autoQueue := true
  autoReplay := true
  reconnectInProgress := false
  protocolClosed := false

def connectEventName : String := "connect"

/-- Initial state before the first `connect()` call, no listener yet. -/
def c7Start : ConnectState where
  queuing := false
  autoQueue := false
  listeners := []

def idxName : String := "i"

def collName : String := "c"

def doc1Id : String := "d1"

def room1 : String := "room-1"

def room2 : String := "room-2"

/-- The bucket of (`i`,`c`): one tracked id, an active room. -/
def c2Bucket : ObservedDocuments where
  ids := [doc1Id]
  roomId := some room1

def c2Doc : RtDoc where
  _id := doc1Id
  _source := []
  deleted := false

/-- Observer state tracking exactly one document with an active room. -/
def c2State : ObserverState where
  documentsByCollection := [(collectionUrn idxName collName, c2Bucket)]
  documents := [(documentUrn idxName collName doc1Id, c2Doc)]

/-- A `delete` notification for the only tracked document. -/
def c2DeleteNotif : DocumentNotification where
  index := idxName
  collection := collName
  event := deleteEventName
  resultId := doc1Id
  resultSource := []

/-- The observer state after the delete notification: everything cleared. -/
def c2FinalState : ObserverState where
  documentsByCollection := []
  documents := []

/-- The shared realtime document after the delete: marked deleted. -/
def c2DeletedDoc : RtDoc where
  _id := doc1Id
  _source := []
  deleted := true

/-- A `write` notification whose document is not tracked. -/
def c9Notif : DocumentNotification where
  index := idxName
  collection := collName
  event := writeEventName
  resultId := doc1Id
  resultSource := []

/-- An observer tracking nothing. -/
def c9State : ObserverState where
  documentsByCollection := []
  documents := []

def collectionController : String := "collection"

def searchSpecsAction : String := "searchSpecifications"

def scrollSpecsAction : String := "scrollSpecifications"

def c8BodyStr : String := "query-foo-bar"

/-- Opaque stand-in for the original filter body. -/
def c8Body : JSValue := JSValue.str c8BodyStr

/-- The cursor of the repository test's from/size scenario: `total = 30`, a
first page of 2 hits fetched with `from = 2`, `size = 2`, no scroll, no
sort. -/
def c8Cursor : SearchCursor where
  total := 30
  fetched := 2
  controller := collectionController
  searchAction := searchSpecsAction
  scrollAction := scrollSpecsAction
  scroll := none
  scrollId := none
  size := some 2
  from_ := some 2
  hasSort := false
  body := c8Body

/-- Same cursor with `from = 30`: the test's no-further-results case. -/
def c8TerminalCursor : SearchCursor where
  total := 30
  fetched := 2
  controller := collectionController
  searchAction := searchSpecsAction
  scrollAction := scrollSpecsAction
  scroll := none
  scrollId := none
  size := some 2
  from_ := some 30
  hasSort := false
  body := c8Body

/-- The follow-up request the from/size branch of `next()` dispatches:
same controller, search action, same size, preserved body, and `from` set
to the cumulative number of hits already fetched. -/
def c8ExpectedQuery (c : SearchCursor) (sz : Int) : NextQuery where
  controller := c.controller
  action := c.searchAction
  scroll := none
  scrollId := none
  size := some sz
  from_ := some c.fetched
  searchAfter := false
  body := some c.body

def r1Id : String := "r1"

def r2Id : String := "r2"

def documentController : String := "document"

def createAction : String := "create"

def c3r1 : QRequest :=
  { requestId := some r1Id, controller := documentController,
    action := createAction, tag := 1 }

def c3r2 : QRequest :=
  { requestId := some r2Id, controller := documentController,
    action := createAction, tag := 2 }

/-- First enqueue, `queueTTL = 0` (disabled), `queueMaxSize = 1`, empty
queue. -/
def c3FirstEnqueue : List OfflineEntry × List QEvent :=
  enqueue 100 0 1 [] c3r1 (-1)

/-- Second enqueue on the resulting queue: this enqueues beyond
`queueMaxSize = 1`. -/
def c3SecondEnqueue : List OfflineEntry × List QEvent :=
  enqueue 101 0 1 c3FirstEnqueue.1 c3r2 (-1)

def c3wOld : OfflineEntry := { request := some c3r1, ts := 0, timeout := -1 }

def c3wFresh : OfflineEntry :=
  { request := some c3r2, ts := 1000, timeout := -1 }

def c3wq : List OfflineEntry := [c3wOld, c3wFresh]

def c5LoadedReq : QRequest where
  requestId := some r1Id
  controller := documentController
  action := createAction
  tag := 10

def c5LiveReq : QRequest where
  requestId := some r1Id
  controller := documentController
  action := createAction
  tag := 20

/-- A loader-injected entry: `requestId = "r1"`. -/
def c5Loaded : OfflineEntry where
  request := some c5LoadedReq
  ts := 0
  timeout := -1

/-- An entry already present in the live offline queue, sharing the
`requestId` of the loaded entry but carrying a different payload. -/
def c5Live : OfflineEntry where
  request := some c5LiveReq
  ts := 50
  timeout := -1

/-! ## Lemmas -/

namespace JSMap

theorem lookupKey_setKey_self {β : Type} (m : JSMap β) (k : String) (v : β) :
    lookupKey (setKey m k v) k = some v := by
  induction m with
  | nil => simp [setKey, lookupKey]
  | cons p rest ih =>
    by_cases h : p.1 = k
    · simp [setKey, h, lookupKey]
    · simp [setKey, h, lookupKey, ih]

theorem lookupKey_setKey_ne {β : Type} (m : JSMap β) (k k' : String) (v : β)
    (h : k ≠ k') : lookupKey (setKey m k' v) k = lookupKey m k := by
  have h' : ¬(k' = k) := fun hh => h hh.symm
  induction m with
  | nil => simp [setKey, lookupKey, h']
  | cons p rest ih =>
    by_cases hp : p.1 = k'
    · have hpk : ¬(p.1 = k) := by rw [hp]; exact h'
      simp [setKey, hp, lookupKey, h', hpk]
    · simp [setKey, hp, lookupKey, ih]

theorem lookupKey_isSome_of_mem_keys {β : Type} (m : JSMap β) (k : String)
    (h : k ∈ keys m) : (lookupKey m k).isSome := by
  induction m with
  | nil => simp [keys] at h
  | cons p rest ih =>
    by_cases hp : p.1 = k
    · simp [lookupKey, hp]
    · simp [keys] at h
      rcases h with h | h
      · exact absurd h.symm hp
      · simp [lookupKey, hp]
        exact ih (by simpa [keys] using h)

theorem lookupKey_eq_none_of_not_mem_keys {β : Type} (m : JSMap β) (k : String)
    (h : (lookupKey m k) = none) : k ∉ keys m := by
  intro hmem
  have := lookupKey_isSome_of_mem_keys m k hmem
  rw [h] at this
  simp at this

theorem mem_keys_of_lookupKey_isSome {β : Type} (m : JSMap β) (k : String)
    (h : (lookupKey m k).isSome) : k ∈ keys m := by
  induction m with
  | nil => simp [lookupKey] at h
  | cons p rest ih =>
    by_cases hp : p.1 = k
    · simp [keys, hp]
    · simp [lookupKey, hp] at h
      simp [keys]
      right
      exact (by simpa [keys] using ih h)

end JSMap

theorem getObj_setObj_self (st : JSObjStore) (r : Nat) (m : JSObj) :
    getObj (setObj st r m) r = m := by
  simp [getObj, setObj]

theorem getObj_setObj_ne (st : JSObjStore) (r j : Nat) (m : JSObj)
    (h : j ≠ r) : getObj (setObj st r m) j = getObj st j := by
  simp [getObj, setObj, h]

theorem nextRef_setObj (st : JSObjStore) (r : Nat) (m : JSObj) :
    (setObj st r m).nextRef = st.nextRef := rfl

theorem mergeDefaults_heap_ne (kuzzleRef reqRef : Nat) (ks : List String)
    (store : JSObjStore) (j : Nat) (hj : j ≠ reqRef) :
    getObj (mergeDefaults kuzzleRef reqRef store ks) j = getObj store j := by
  induction ks generalizing store with
  | nil => rfl
  | cons k ks ih =>
    cases heq : lookupKey (getObj store reqRef) k with
    | some v => simp [mergeDefaults, heq]; exact ih store
    | none =>
      simp [mergeDefaults, heq]
      rw [ih]
      exact getObj_setObj_ne _ _ _ _ hj

theorem mergeDefaults_nextRef (kuzzleRef reqRef : Nat) (ks : List String)
    (store : JSObjStore) :
    (mergeDefaults kuzzleRef reqRef store ks).nextRef = store.nextRef := by
  induction ks generalizing store with
  | nil => rfl
  | cons k ks ih =>
    cases heq : lookupKey (getObj store reqRef) k with
    | some v => simp [mergeDefaults, heq]; exact ih store
    | none => simp [mergeDefaults, heq]; rw [ih]; rfl

theorem mergeDefaults_noop (r : Nat) (ks : List String) (store : JSObjStore)
    (h : ∀ k ∈ ks, (lookupKey (getObj store r) k).isSome) :
    mergeDefaults r r store ks = store := by
  induction ks with
  | nil => rfl
  | cons k ks ih =>
    have hk := h k (by simp)
    cases heq : lookupKey (getObj store r) k with
    | some v =>
      simp [mergeDefaults, heq]
      exact ih (fun k' hk' => h k' (by simp [hk']))
    | none => rw [heq] at hk; simp at hk

theorem mergeDefaults_lookup_some (kuzzleRef reqRef : Nat) (ks : List String)
    (store : JSObjStore) (k : String) (v : JSValue)
    (h : lookupKey (getObj store reqRef) k = some v) :
    lookupKey (getObj (mergeDefaults kuzzleRef reqRef store ks) reqRef) k
      = some v := by
  induction ks generalizing store with
  | nil => exact h
  | cons k' ks ih =>
    cases heq : lookupKey (getObj store reqRef) k' with
    | some w => simp [mergeDefaults, heq]; exact ih store h
    | none =>
      have hne : k ≠ k' := by
        intro hkk
        rw [hkk] at h
        rw [h] at heq
        exact Option.noConfusion heq
      simp [mergeDefaults, heq]
      apply ih
      rw [getObj_setObj_self]
      rw [lookupKey_setKey_ne _ _ _ _ hne]
      exact h

theorem mergeDefaults_copies (kuzzleRef reqRef : Nat) (ks : List String)
    (store : JSObjStore) (k : String) (v : JSValue)
    (hne : reqRef ≠ kuzzleRef)
    (hreq : lookupKey (getObj store reqRef) k = none)
    (hkuz : lookupKey (getObj store kuzzleRef) k = some v)
    (hmem : k ∈ ks) :
    lookupKey (getObj (mergeDefaults kuzzleRef reqRef store ks) reqRef) k
      = some v := by
  induction ks generalizing store with
  | nil => simp at hmem
  | cons k' ks ih =>
    by_cases hk : k' = k
    · subst hk
      simp [mergeDefaults, hreq]
      apply mergeDefaults_lookup_some
      rw [getObj_setObj_self, hkuz]
      simp [lookupKey_setKey_self]
    · have hmem' : k ∈ ks := by
        rcases List.mem_cons.mp hmem with h | h
        · exact absurd h.symm hk
        · exact h
      cases heq : lookupKey (getObj store reqRef) k' with
      | some w => simp [mergeDefaults, heq]; exact ih store hreq hkuz hmem'
      | none =>
        simp [mergeDefaults, heq]
        apply ih
        · rw [getObj_setObj_self]
          rw [lookupKey_setKey_ne _ _ _ _ (fun hh => hk hh.symm)]
          exact hreq
        · rw [getObj_setObj_ne _ _ _ _ (fun hh => hne hh.symm)]
          exact hkuz
        · exact hmem'

theorem setMarker_nextRef (store : JSObjStore) (r : Nat) (k : String)
    (fb : JSValue) : (setMarker store r k fb).nextRef = store.nextRef := rfl

theorem getObj_setMarker_ne (store : JSObjStore) (r j : Nat) (k : String)
    (fb : JSValue) (h : j ≠ r) :
    getObj (setMarker store r k fb) j = getObj store j := by
  simp only [setMarker]
  exact getObj_setObj_ne _ _ _ _ h

theorem lookupKey_setMarker_ne (store : JSObjStore) (r : Nat) (k k' : String)
    (fb : JSValue) (h : k' ≠ k) :
    lookupKey (getObj (setMarker store r k fb) r) k'
      = lookupKey (getObj store r) k' := by
  simp only [setMarker]
  rw [getObj_setObj_self]
  exact lookupKey_setKey_ne _ _ _ _ h

theorem lookupKey_setMarker_none (store : JSObjStore) (r : Nat) (k : String)
    (fb : JSValue) (h : lookupKey (getObj store r) k = none) :
    lookupKey (getObj (setMarker store r k fb) r) k = some fb := by
  simp only [setMarker, h]
  rw [getObj_setObj_self]
  exact lookupKey_setKey_self _ _ _

theorem lookupKey_setMarker_some (store : JSObjStore) (r : Nat) (k : String)
    (fb v : JSValue) (h : lookupKey (getObj store r) k = some v) :
    lookupKey (getObj (setMarker store r k fb) r) k
      = some (if v.truthy then v else fb) := by
  simp only [setMarker, h]
  rw [getObj_setObj_self]
  exact lookupKey_setKey_self _ _ _

theorem mem_keys_setKey_self {β : Type} (m : JSMap β) (k : String) (v : β) :
    k ∈ keys (setKey m k v) := by
  induction m with
  | nil => simp [setKey, keys]
  | cons p rest ih =>
    by_cases hp : p.1 = k
    · simp [setKey, hp, keys]
    · simp [setKey, hp, keys] at ih ⊢
      right
      exact ih

theorem mem_keys_setKey_of_mem {β : Type} (m : JSMap β) (k k' : String)
    (v : β) (h : k ∈ keys m) : k ∈ keys (setKey m k' v) := by
  induction m with
  | nil => simp [keys] at h
  | cons p rest ih =>
    by_cases hp : p.1 = k'
    · simp [setKey, hp, keys] at h ⊢
      rcases h with h | h
      · left; exact h
      · right; exact h
    · simp [setKey, hp, keys] at h ⊢
      rcases h with h | h
      · left; exact h
      · right
        exact (by simpa [keys] using ih (by simpa [keys] using h))

/-! ### Offline queue lemmas -/

theorem dequeuingProcess_eq_flatMap (q : List OfflineEntry) :
    dequeuingProcess q
      = q.flatMap fun e =>
          [QEvent.sent e.request, QEvent.offlineQueuePop e.request] := by
  induction q with
  | nil => rfl
  | cons e rest ih => simp [dequeuingProcess, ih]

theorem filterMap_sent_dequeuingProcess (q : List OfflineEntry) :
    (dequeuingProcess q).filterMap sentRequest?
      = q.map OfflineEntry.request := by
  induction q with
  | nil => rfl
  | cons e rest ih =>
    simp [dequeuingProcess, List.filterMap_cons, sentRequest?, ih]

theorem filterMap_pop_dequeuingProcess (q : List OfflineEntry) :
    (dequeuingProcess q).filterMap popRequest?
      = q.map OfflineEntry.request := by
  induction q with
  | nil => rfl
  | cons e rest ih =>
    simp [dequeuingProcess, List.filterMap_cons, popRequest?, ih]

theorem filterMap_sent_popRejectEvents (d : List OfflineEntry) (msg : String) :
    (popRejectEvents d msg).filterMap sentRequest? = [] := by
  induction d with
  | nil => rfl
  | cons e rest ih =>
    simp [popRejectEvents, List.filterMap_cons, sentRequest?] at ih ⊢
    exact ih

theorem ttlSplice_eq_drop_take (now queueTTL : Int) (q : List OfflineEntry) :
    ∃ a, ttlSplice now queueTTL q = (q.drop a, q.take a) := by
  unfold ttlSplice
  by_cases h1 : queueTTL > 0
  · by_cases h2 : lastExpiredIndex now queueTTL q = -1
    · exact ⟨0, by simp [h1, h2]⟩
    · exact ⟨(lastExpiredIndex now queueTTL q + 1).toNat, by simp [h1, h2]⟩
  · exact ⟨0, by simp [h1]⟩

theorem sizeSplice_eq_drop_take (queueMaxSize : Int) (q1 : List OfflineEntry) :
    ∃ b, sizeSplice queueMaxSize q1 = (q1.drop b, q1.take b) := by
  unfold sizeSplice
  by_cases h : queueMaxSize > 0 ∧ (q1.length : Int) > queueMaxSize
  · exact ⟨q1.length - queueMaxSize.toNat, by simp [h]⟩
  · exact ⟨0, by simp [h]⟩

theorem cleanQueueFull_fst_drop (now queueTTL queueMaxSize : Int)
    (q : List OfflineEntry) :
    ∃ k, (cleanQueueFull now queueTTL queueMaxSize q).1 = q.drop k := by
  obtain ⟨a, ha⟩ := ttlSplice_eq_drop_take now queueTTL q
  obtain ⟨b, hb⟩ := sizeSplice_eq_drop_take queueMaxSize (q.drop a)
  refine ⟨a + b, ?_⟩
  unfold cleanQueueFull
  rw [ha]
  simp only [hb]
  rw [List.drop_drop]

theorem filterMap_sent_cleanQueue_events (now queueTTL queueMaxSize : Int)
    (q : List OfflineEntry) :
    ((cleanQueue now queueTTL queueMaxSize q).2).filterMap sentRequest?
      = [] := by
  unfold cleanQueue cleanQueueFull
  rw [List.filterMap_append, filterMap_sent_popRejectEvents,
    filterMap_sent_popRejectEvents]
  rfl

/-- C1: replaying the queue (`playQueue`/`_dequeue`) processes the entries
strictly in FIFO enqueue order, one entry at a time: the replay event trace
is exactly, per entry in queue order, a transport send immediately followed
by that entry's `offlineQueuePop`; hence the sequence of transport sends
equals the queue sequence (no later-enqueued request is ever sent before an
earlier-enqueued one), an `offlineQueuePop` is emitted for each dequeued
entry, and the requests `playQueue` sends after its eviction pass are a
drop-suffix of the original queue, in order. -/
theorem c1_dequeue_fifo (q : List OfflineEntry)
    (now queueTTL queueMaxSize : Int) :
    (dequeuingProcess q
        = q.flatMap fun e =>
            [QEvent.sent e.request, QEvent.offlineQueuePop e.request])
      ∧ (dequeuingProcess q).filterMap sentRequest?
          = q.map OfflineEntry.request
      ∧ (dequeuingProcess q).filterMap popRequest?
          = q.map OfflineEntry.request
      ∧ ∃ k, ((playQueue true now queueTTL queueMaxSize q).2).filterMap
            sentRequest? = (q.drop k).map OfflineEntry.request := by
  refine ⟨dequeuingProcess_eq_flatMap q, filterMap_sent_dequeuingProcess q,
    filterMap_pop_dequeuingProcess q, ?_⟩
  obtain ⟨k, hk⟩ := cleanQueueFull_fst_drop now queueTTL queueMaxSize q
  refine ⟨k, ?_⟩
  show ((cleanQueue now queueTTL queueMaxSize q).2
      ++ dequeuingProcess (cleanQueue now queueTTL queueMaxSize q).1).filterMap
        sentRequest? = _
  rw [List.filterMap_append, filterMap_sent_cleanQueue_events]
  have : (cleanQueue now queueTTL queueMaxSize q).1 = q.drop k := hk
  rw [this, filterMap_sent_dequeuingProcess]
  rfl

/-! ### `_cleanQueue` eviction lemmas (claim C3) -/

theorem lastExpiredIndexAux_le (now queueTTL : Int) (q : List OfflineEntry)
    (n acc : Int) (h : acc ≤ n) :
    acc ≤ lastExpiredIndexAux now queueTTL q n acc := by
  induction q generalizing n acc with
  | nil => exact le_refl acc
  | cons e rest ih =>
    simp only [lastExpiredIndexAux]
    by_cases he : e.ts < now - queueTTL
    · simp only [he, if_pos]
      calc acc ≤ n := h
        _ ≤ lastExpiredIndexAux now queueTTL rest (n + 1) n :=
          ih (n + 1) n (by omega)
    · simp only [he, if_neg, ite_false]
      exact ih (n + 1) acc (by omega)

theorem lastExpiredIndexAux_ge_of_expired (now queueTTL : Int)
    (q : List OfflineEntry) (n acc : Int) (j : Nat) (hj : j < q.length)
    (hacc : acc ≤ n)
    (hexp : (q.get ⟨j, hj⟩).ts < now - queueTTL) :
    n + j ≤ lastExpiredIndexAux now queueTTL q n acc := by
  induction q generalizing n acc j with
  | nil => simp at hj
  | cons e rest ih =>
    cases j with
    | zero =>
      simp only [List.get] at hexp
      simp only [lastExpiredIndexAux, hexp, if_pos]
      have := lastExpiredIndexAux_le now queueTTL rest (n + 1) n (by omega)
      omega
    | succ j' =>
      simp only [lastExpiredIndexAux]
      have hj' : j' < rest.length := by
        simpa [Nat.succ_lt_succ_iff] using hj
      have hexp' : (rest.get ⟨j', hj'⟩).ts < now - queueTTL := by
        simpa using hexp
      have hacc' : (if e.ts < now - queueTTL then n else acc) ≤ n + 1 := by
        split <;> omega
      have := ih (n + 1) _ j' hj' hacc' hexp'
      omega

theorem lastExpiredIndex_ge_neg_one (now queueTTL : Int)
    (q : List OfflineEntry) : (-1 : Int) ≤ lastExpiredIndex now queueTTL q :=
  lastExpiredIndexAux_le now queueTTL q 0 (-1) (by omega)

theorem not_expired_of_mem_drop (now queueTTL : Int) (q : List OfflineEntry)
    (e : OfflineEntry)
    (he : e ∈ q.drop (lastExpiredIndex now queueTTL q + 1).toNat) :
    ¬(e.ts < now - queueTTL) := by
  intro hexp
  have hge : (-1 : Int) ≤ lastExpiredIndex now queueTTL q :=
    lastExpiredIndex_ge_neg_one now queueTTL q
  obtain ⟨j, hj, hget⟩ := List.mem_iff_getElem.mp he
  have hlen : (lastExpiredIndex now queueTTL q + 1).toNat + j < q.length := by
    have := hj
    simp only [List.length_drop] at this
    omega
  have hg :
      q.get ⟨(lastExpiredIndex now queueTTL q + 1).toNat + j, hlen⟩ = e := by
    rw [List.get_eq_getElem]
    rw [← List.getElem_drop]
    exact hget
  have hexp' :
      (q.get ⟨(lastExpiredIndex now queueTTL q + 1).toNat + j, hlen⟩).ts
        < now - queueTTL := by
    rw [hg]
    exact hexp
  have hbound :=
    lastExpiredIndexAux_ge_of_expired now queueTTL q 0 (-1) _ hlen
      (by omega) hexp'
  have hcast :
      (((lastExpiredIndex now queueTTL q + 1).toNat + j : Nat) : Int)
        = lastExpiredIndex now queueTTL q + 1 + j := by
    omega
  rw [hcast] at hbound
  simp only [lastExpiredIndex] at hbound ⊢
  omega

theorem expired_mem_ttlSplice (now queueTTL : Int) (q : List OfflineEntry)
    (e : OfflineEntry) (ht : queueTTL > 0) (hq : e ∈ q)
    (hexp : e.ts < now - queueTTL) :
    e ∈ (ttlSplice now queueTTL q).2 := by
  have hli : lastExpiredIndex now queueTTL q ≠ -1 := by
    obtain ⟨j, hj, hget⟩ := List.mem_iff_getElem.mp hq
    have hexp' : (q.get ⟨j, hj⟩).ts < now - queueTTL := by
      simpa [List.get_eq_getElem, hget] using hexp
    have := lastExpiredIndexAux_ge_of_expired now queueTTL q 0 (-1) j hj
      (by omega) hexp'
    simp only [lastExpiredIndex]
    omega
  unfold ttlSplice
  simp only [ht, if_pos, hli, if_neg, ite_false]
  have hsplit : e ∈ q.take (lastExpiredIndex now queueTTL q + 1).toNat
      ∨ e ∈ q.drop (lastExpiredIndex now queueTTL q + 1).toNat := by
    rw [← List.mem_append, List.take_append_drop]
    exact hq
  rcases hsplit with h | h
  · exact h
  · exact absurd hexp (not_expired_of_mem_drop now queueTTL q e h)

theorem pop_mem_popRejectEvents (d : List OfflineEntry) (msg : String)
    (e : OfflineEntry) (h : e ∈ d) :
    QEvent.offlineQueuePop e.request ∈ popRejectEvents d msg := by
  unfold popRejectEvents
  rw [List.mem_flatMap]
  exact ⟨e, h, by simp⟩

theorem rejected_mem_popRejectEvents (d : List OfflineEntry) (msg : String)
    (e : OfflineEntry) (h : e ∈ d) :
    QEvent.rejected e.request msg ∈ popRejectEvents d msg := by
  unfold popRejectEvents
  rw [List.mem_flatMap]
  exact ⟨e, h, by simp⟩

theorem sizeSplice_fst_length_le (queueMaxSize : Int)
    (q1 : List OfflineEntry) (h : queueMaxSize > 0) :
    (((sizeSplice queueMaxSize q1).1.length : Int)) ≤ queueMaxSize := by
  unfold sizeSplice
  by_cases hc : queueMaxSize > 0 ∧ (q1.length : Int) > queueMaxSize
  · rw [if_pos hc]
    simp only [List.length_drop]
    omega
  · rw [if_neg hc]
    show ((q1.length : Int)) ≤ queueMaxSize
    rcases not_and_or.mp hc with h' | h'
    · exact absurd h h'
    · omega

theorem sizeSplice_fst_length_eq (queueMaxSize : Int)
    (q1 : List OfflineEntry) (h : queueMaxSize > 0)
    (hlen : (q1.length : Int) > queueMaxSize) :
    (((sizeSplice queueMaxSize q1).1.length : Int)) = queueMaxSize := by
  unfold sizeSplice
  have hc : queueMaxSize > 0 ∧ (q1.length : Int) > queueMaxSize := ⟨h, hlen⟩
  rw [if_pos hc]
  simp only [List.length_drop]
  omega

/-- C3 (amended): `_cleanQueue` — run before every enqueue and before every
replay — behaves as follows.  (1) The queue decomposes as TTL-dropped
prefix, then max-size-dropped prefix, then survivors: removals are a
contiguous oldest prefix and survivors keep their relative order.  (2) When
`queueTTL > 0`, every entry older than `queueTTL` is dropped by the TTL
rule, with an `offlineQueuePop` emission and a "queued time exceeded"
rejection.  (3)/(4) A TTL or max-size value `<= 0` disables the respective
rule.  (5)/(6) When `queueMaxSize > 0`, at most `queueMaxSize` entries
survive the clean, and exactly `queueMaxSize` survive whenever more than
`queueMaxSize` entered the max-size rule.  (7) The emitted events are
exactly one `offlineQueuePop` plus one rejection per dropped entry.
(8) An enqueue appends the new entry only after this clean-up — so, unlike
what the original claim states, enqueuing beyond `queueMaxSize` does not
reject the oldest excess entry at once: the queue may momentarily hold
`queueMaxSize + 1` live entries and the excess is dropped at the next
enqueue or replay.  (9) `playQueue` replays only the cleaned queue. -/
theorem c3_cleanQueue_eviction (now queueTTL queueMaxSize : Int)
    (q : List OfflineEntry) :
    (q = cleanTTLDropped now queueTTL queueMaxSize q
        ++ cleanSizeDropped now queueTTL queueMaxSize q
        ++ cleanRemaining now queueTTL queueMaxSize q)
      ∧ (queueTTL > 0 → ∀ e ∈ q, e.ts < now - queueTTL →
          e ∈ cleanTTLDropped now queueTTL queueMaxSize q
            ∧ QEvent.offlineQueuePop e.request
                ∈ cleanEvents now queueTTL queueMaxSize q
            ∧ QEvent.rejected e.request ttlMsg
                ∈ cleanEvents now queueTTL queueMaxSize q)
      ∧ (queueTTL ≤ 0 → cleanTTLDropped now queueTTL queueMaxSize q = [])
      ∧ (queueMaxSize ≤ 0 →
          cleanSizeDropped now queueTTL queueMaxSize q = [])
      ∧ (queueMaxSize > 0 →
          ((cleanRemaining now queueTTL queueMaxSize q).length : Int)
            ≤ queueMaxSize)
      ∧ (queueMaxSize > 0 →
          (q.length : Int)
              - (cleanTTLDropped now queueTTL queueMaxSize q).length
            > queueMaxSize →
          ((cleanRemaining now queueTTL queueMaxSize q).length : Int)
            = queueMaxSize)
      ∧ (cleanEvents now queueTTL queueMaxSize q
          = popRejectEvents (cleanTTLDropped now queueTTL queueMaxSize q)
              ttlMsg
            ++ popRejectEvents
                (cleanSizeDropped now queueTTL queueMaxSize q) maxSizeMsg)
      ∧ (∀ r timeout, enqueue now queueTTL queueMaxSize q r timeout
          = (cleanRemaining now queueTTL queueMaxSize q
              ++ [{ request := some r, ts := now, timeout := timeout }],
             cleanEvents now queueTTL queueMaxSize q
              ++ [QEvent.offlineQueuePush (some r)]))
      ∧ (playQueue true now queueTTL queueMaxSize q
          = ([], cleanEvents now queueTTL queueMaxSize q
              ++ dequeuingProcess
                  (cleanRemaining now queueTTL queueMaxSize q))) := by
  obtain ⟨a, ha⟩ := ttlSplice_eq_drop_take now queueTTL q
  have hTTLd : cleanTTLDropped now queueTTL queueMaxSize q = q.take a := by
    unfold cleanTTLDropped cleanQueueFull
    rw [ha]
  have hq1 : (ttlSplice now queueTTL q).1 = q.drop a := by rw [ha]
  obtain ⟨b, hb⟩ := sizeSplice_eq_drop_take queueMaxSize (q.drop a)
  have hSized : cleanSizeDropped now queueTTL queueMaxSize q
      = (q.drop a).take b := by
    unfold cleanSizeDropped cleanQueueFull
    rw [ha]
    simp only [hb]
  have hRem : cleanRemaining now queueTTL queueMaxSize q
      = (q.drop a).drop b := by
    unfold cleanRemaining cleanQueueFull
    rw [ha]
    simp only [hb]
  refine ⟨?_, ?_, ?_, ?_, ?_, ?_, ?_, ?_, ?_⟩
  · rw [hTTLd, hSized, hRem, List.append_assoc, List.take_append_drop,
      List.take_append_drop]
  · intro ht e he hexp
    have hmem : e ∈ (ttlSplice now queueTTL q).2 :=
      expired_mem_ttlSplice now queueTTL q e ht he hexp
    have hmem' : e ∈ cleanTTLDropped now queueTTL queueMaxSize q := by
      unfold cleanTTLDropped cleanQueueFull
      exact hmem
    refine ⟨hmem', ?_, ?_⟩
    · unfold cleanEvents cleanQueueFull
      rw [List.mem_append]
      exact Or.inl (pop_mem_popRejectEvents _ _ _ hmem)
    · unfold cleanEvents cleanQueueFull
      rw [List.mem_append]
      exact Or.inl (rejected_mem_popRejectEvents _ _ _ hmem)
  · intro ht
    unfold cleanTTLDropped cleanQueueFull ttlSplice
    have : ¬(queueTTL > 0) := by omega
    simp [this]
  · intro hm
    unfold cleanSizeDropped cleanQueueFull sizeSplice
    have : ¬(queueMaxSize > 0 ∧
        (((ttlSplice now queueTTL q).1.length : Int)) > queueMaxSize) := by
      intro hc
      omega
    simp [this]
  · intro hm
    have := sizeSplice_fst_length_le queueMaxSize (q.drop a) hm
    unfold cleanRemaining cleanQueueFull
    rw [ha]
    exact this
  · intro hm hlen
    have hqlen : q.length = a ⊓ q.length + (q.drop a).length := by
      conv_lhs => rw [← List.take_append_drop a q]
      rw [List.length_append, List.length_take]
    have hTTLlen : (cleanTTLDropped now queueTTL queueMaxSize q).length
        = a ⊓ q.length := by
      rw [hTTLd, List.length_take]
    rw [hTTLlen] at hlen
    have hlen' : ((q.drop a).length : Int) > queueMaxSize := by
      omega
    have := sizeSplice_fst_length_eq queueMaxSize (q.drop a) hm hlen'
    unfold cleanRemaining cleanQueueFull
    rw [ha]
    exact this
  · unfold cleanEvents cleanTTLDropped cleanSizeDropped cleanQueueFull
    rfl
  · intro r timeout
    unfold enqueue cleanQueue cleanRemaining cleanEvents
    rfl
  · unfold playQueue cleanQueue cleanRemaining cleanEvents
    rfl

/-- C3 counterexample: with `queueMaxSize = 1` (TTL disabled), enqueuing a
second request leaves two live entries in the queue and rejects nothing —
the claim's "enqueuing beyond queueMaxSize rejects the oldest excess
entries so that exactly queueMaxSize live entries remain" fails on the
code, because `_cleanQueue` runs before the push. -/
theorem c3_counterexample :
    c3SecondEnqueue.1.length = 2 ∧ ¬(c3SecondEnqueue.1.length = 1)
      ∧ c3SecondEnqueue.2 = [QEvent.offlineQueuePush (some c3r2)] := by
  decide

/-- Witness for `c3_cleanQueue_eviction` at a concrete input: `now = 1000`,
`queueTTL = 10`, `queueMaxSize = 1`, a stale entry (`ts = 0`) and a fresh
one (`ts = 1000`): the stale entry is TTL-dropped with its
`offlineQueuePop` and "queued time exceeded" rejection. -/
theorem c3_cleanQueue_eviction_witness :
    c3wOld ∈ cleanTTLDropped 1000 10 1 c3wq
      ∧ QEvent.offlineQueuePop c3wOld.request ∈ cleanEvents 1000 10 1 c3wq
      ∧ QEvent.rejected c3wOld.request ttlMsg ∈ cleanEvents 1000 10 1 c3wq :=
  (c3_cleanQueue_eviction 1000 10 1 c3wq).2.1 (by decide) c3wOld
    (by decide) (by decide)

/-! ### Loader dedup lemmas (claim C5) -/

theorem filterUniqueQueue_error_of_invalid (l : List OfflineEntry)
    (seen : List String) (h : ∃ e ∈ l, validEntry e = false) :
    filterUniqueQueue l seen = .error invalidQueueMsg := by
  induction l generalizing seen with
  | nil => simp at h
  | cons e rest ih =>
    rcases h with ⟨x, hx, hval⟩
    rcases List.mem_cons.mp hx with hhead | hx'
    · subst hhead
      cases hr : x.request with
      | none => simp [filterUniqueQueue, hr]
      | some r =>
        cases hid : r.requestId with
        | none => simp [filterUniqueQueue, hr, hid]
        | some rid =>
          have hac : r.action = emptyString ∨ r.controller = emptyString := by
            simp [validEntry, hr, hid] at hval
            by_cases ha : r.action = emptyString
            · exact Or.inl ha
            · exact Or.inr (by tauto)
          simp [filterUniqueQueue, hr, hid, hac]
    · cases hr : e.request with
      | none => simp [filterUniqueQueue, hr]
      | some r =>
        cases hid : r.requestId with
        | none => simp [filterUniqueQueue, hr, hid]
        | some rid =>
          by_cases hac : r.action = emptyString ∨ r.controller = emptyString
          · simp [filterUniqueQueue, hr, hid, hac]
          · by_cases hseen : rid ∈ seen
            · simp [filterUniqueQueue, hr, hid, hac, hseen]
              exact ih seen ⟨x, hx', hval⟩
            · simp [filterUniqueQueue, hr, hid, hac, hseen]
              rw [ih (rid :: seen) ⟨x, hx', hval⟩]
              rfl

theorem filterUniqueQueue_ok_of_valid (l : List OfflineEntry)
    (seen : List String) (h : ∀ e ∈ l, validEntry e = true) :
    filterUniqueQueue l seen = .ok (firstWins l seen) := by
  induction l generalizing seen with
  | nil => rfl
  | cons e rest ih =>
    have hval := h e (by simp)
    have htail : ∀ x ∈ rest, validEntry x = true :=
      fun x hx => h x (by simp [hx])
    cases hr : e.request with
    | none => simp [validEntry, hr] at hval
    | some r =>
      cases hid : r.requestId with
      | none => simp [validEntry, hr, hid] at hval
      | some rid =>
        have hac : ¬(r.action = emptyString ∨ r.controller = emptyString) := by
          simp [validEntry, hr, hid] at hval
          intro hc
          rcases hc with hc | hc
          · exact hval.1 hc
          · exact hval.2 hc
        by_cases hseen : rid ∈ seen
        · simp [filterUniqueQueue, firstWins, hr, hid, hac, hseen]
          exact ih seen htail
        · simp [filterUniqueQueue, firstWins, hr, hid, hac, hseen]
          rw [ih (rid :: seen) htail]
          rfl

/-- C5 (amended): during replay with an `offlineQueueLoader` configured,
the `requestId`-uniqueness check runs over the whole concatenated sequence
`loaded ++ live` — not only over the loaded batch — keeping first
occurrences (so a loaded entry removes a same-`requestId` entry already
present in the live offline queue, and duplicate ids inside the live queue
are collapsed too); and every entry of the concatenation (loaded and live
alike) must carry `requestId`, `controller` and `action`, or the whole
replay fails fast. -/
theorem c5_loader_dedup (additionalQueue liveQueue : List OfflineEntry) :
    ((∀ e ∈ additionalQueue ++ liveQueue, validEntry e = true) →
        mergeLoadedQueue additionalQueue liveQueue
          = .ok (firstWins (additionalQueue ++ liveQueue) []))
      ∧ ((∃ e ∈ additionalQueue ++ liveQueue, validEntry e = false) →
        mergeLoadedQueue additionalQueue liveQueue
          = .error invalidQueueMsg) := by
  constructor
  · intro h
    exact filterUniqueQueue_ok_of_valid _ [] h
  · intro h
    exact filterUniqueQueue_error_of_invalid _ [] h

/-- C5 counterexample: a valid live-queue entry (`c5Live`) sharing its
`requestId` with a loaded entry (`c5Loaded`) is removed by the uniqueness
check — the loaded batch is **not** deduplicated only against itself, so
the claim's "and not against entries already present in the live offline
queue" fails on the code (`_dequeue` filters
`additionalQueue.concat(this.offlineQueue)` with one shared `uniqueQueue`
seen-set, Kuzzle.ts:1072-1094). -/
theorem c5_counterexample :
    mergeLoadedQueue [c5Loaded] [c5Live] = .ok [c5Loaded]
      ∧ validEntry c5Live = true
      ∧ c5Live ≠ c5Loaded := by
  decide

/-- Witness for `c5_loader_dedup` at the concrete loaded/live pair. -/
theorem c5_loader_dedup_witness :
    mergeLoadedQueue [c5Loaded] [c5Live]
      = .ok (firstWins ([c5Loaded] ++ [c5Live]) []) :=
  (c5_loader_dedup [c5Loaded] [c5Live]).1 (by decide)

/-! ### Volatile-merge lemmas (claims C6 and C10) -/

theorem allocObj_snd (st : JSObjStore) (m : JSObj) :
    (allocObj st m).2 = st.nextRef := rfl

theorem getObj_allocObj_self (st : JSObjStore) (m : JSObj) :
    getObj (allocObj st m).1 st.nextRef = m := by
  simp [allocObj, getObj]

theorem getObj_allocObj_ne (st : JSObjStore) (m : JSObj) (j : Nat)
    (h : j ≠ st.nextRef) : getObj (allocObj st m).1 j = getObj st j := by
  simp [allocObj, getObj, h]

/-- After a query whose (copied) request carried its own volatile object
missing both markers, against a defaults object carrying both markers, the
dispatched volatile carries the markers' default values: the defaults-merge
loop copies them and the `||` marker assignments keep them. -/
theorem dispatched_lookup_marker (store' : JSObjStore) (kuzzleRef : Nat)
    (m2 : JSObj) (pid sname : JSValue)
    (hwf' : kuzzleRef ≠ store'.nextRef)
    (hm2I : lookupKey m2 sdkInstanceIdKey = none)
    (hm2N : lookupKey m2 sdkNameKey = none)
    (hkI : lookupKey (getObj store' kuzzleRef) sdkInstanceIdKey = some pid)
    (hkN : lookupKey (getObj store' kuzzleRef) sdkNameKey = some sname) :
    lookupKey (dispatchedVolatile store' kuzzleRef (some m2) pid sname)
        sdkInstanceIdKey = some pid
      ∧ lookupKey (dispatchedVolatile store' kuzzleRef (some m2) pid sname)
          sdkNameKey = some sname := by
  have hNI : sdkNameKey ≠ sdkInstanceIdKey := by decide
  have hIN : sdkInstanceIdKey ≠ sdkNameKey := by decide
  have hrfl : dispatchedVolatile store' kuzzleRef (some m2) pid sname
      = getObj
          (setMarker
            (setMarker
              (mergeDefaults kuzzleRef (allocObj store' m2).2
                (allocObj store' m2).1
                (keys (getObj (allocObj store' m2).1 kuzzleRef)))
              (allocObj store' m2).2 sdkInstanceIdKey pid)
            (allocObj store' m2).2 sdkNameKey sname)
          (allocObj store' m2).2 := rfl
  have h2 : (allocObj store' m2).2 = store'.nextRef := rfl
  have hgA : getObj (allocObj store' m2).1 kuzzleRef
      = getObj store' kuzzleRef :=
    getObj_allocObj_ne store' m2 kuzzleRef hwf'
  rw [h2, hgA] at hrfl
  have hne : store'.nextRef ≠ kuzzleRef := fun h => hwf' h.symm
  have hreqI : lookupKey (getObj (allocObj store' m2).1 store'.nextRef)
      sdkInstanceIdKey = none := by
    rw [getObj_allocObj_self]
    exact hm2I
  have hreqN : lookupKey (getObj (allocObj store' m2).1 store'.nextRef)
      sdkNameKey = none := by
    rw [getObj_allocObj_self]
    exact hm2N
  have hkuzI : lookupKey (getObj (allocObj store' m2).1 kuzzleRef)
      sdkInstanceIdKey = some pid := by
    rw [hgA]
    exact hkI
  have hkuzN : lookupKey (getObj (allocObj store' m2).1 kuzzleRef)
      sdkNameKey = some sname := by
    rw [hgA]
    exact hkN
  have hmemI : sdkInstanceIdKey ∈ keys (getObj store' kuzzleRef) :=
    JSMap.mem_keys_of_lookupKey_isSome _ _ (by rw [hkI]; rfl)
  have hmemN : sdkNameKey ∈ keys (getObj store' kuzzleRef) :=
    JSMap.mem_keys_of_lookupKey_isSome _ _ (by rw [hkN]; rfl)
  have hMI : lookupKey
      (getObj (mergeDefaults kuzzleRef store'.nextRef
        (allocObj store' m2).1 (keys (getObj store' kuzzleRef)))
        store'.nextRef) sdkInstanceIdKey = some pid :=
    mergeDefaults_copies kuzzleRef store'.nextRef _ _ _ pid hne hreqI
      hkuzI hmemI
  have hMN : lookupKey
      (getObj (mergeDefaults kuzzleRef store'.nextRef
        (allocObj store' m2).1 (keys (getObj store' kuzzleRef)))
        store'.nextRef) sdkNameKey = some sname :=
    mergeDefaults_copies kuzzleRef store'.nextRef _ _ _ sname hne hreqN
      hkuzN hmemN
  have hs1I : lookupKey
      (getObj (setMarker (mergeDefaults kuzzleRef store'.nextRef
        (allocObj store' m2).1 (keys (getObj store' kuzzleRef)))
        store'.nextRef sdkInstanceIdKey pid) store'.nextRef)
      sdkInstanceIdKey = some pid := by
    rw [lookupKey_setMarker_some _ _ _ pid pid hMI]
    simp
  have hs1N : lookupKey
      (getObj (setMarker (mergeDefaults kuzzleRef store'.nextRef
        (allocObj store' m2).1 (keys (getObj store' kuzzleRef)))
        store'.nextRef sdkInstanceIdKey pid) store'.nextRef)
      sdkNameKey = some sname := by
    rw [lookupKey_setMarker_ne _ _ _ _ pid hNI]
    exact hMN
  constructor
  · rw [hrfl]
    rw [lookupKey_setMarker_ne _ _ _ _ sname hIN]
    exact hs1I
  · rw [hrfl]
    rw [lookupKey_setMarker_some _ _ _ sname sname hs1N]
    simp

/-- C10: for a query whose (deep-copied) request carries no volatile field,
the dispatched request's volatile is the very same object as the SDK-wide
volatile defaults (the dispatched reference is the defaults' heap address,
no fresh object is allocated), and `query()` writes the `sdkInstanceId` and
`sdkName` keys through that shared reference, so the SDK-wide defaults
observable via `kuzzle.volatile` are mutated by the call, and those keys
are visible to subsequent requests (a later query with its own volatile
object lacking the markers receives them from the mutated defaults). -/
theorem c10_volatile_alias_mutation (store : JSObjStore) (kuzzleRef : Nat)
    (pid sname : JSValue)
    (hwf : kuzzleRef < store.nextRef)
    (hI : lookupKey (getObj store kuzzleRef) sdkInstanceIdKey = none)
    (hN : lookupKey (getObj store kuzzleRef) sdkNameKey = none) :
    (queryVolatile store kuzzleRef none pid sname).2 = kuzzleRef
      ∧ lookupKey (defaultsAfterQuery store kuzzleRef none pid sname)
          sdkInstanceIdKey = some pid
      ∧ lookupKey (defaultsAfterQuery store kuzzleRef none pid sname)
          sdkNameKey = some sname
      ∧ defaultsAfterQuery store kuzzleRef none pid sname
          ≠ getObj store kuzzleRef
      ∧ (∀ m2 : JSObj,
          lookupKey m2 sdkInstanceIdKey = none →
          lookupKey m2 sdkNameKey = none →
          lookupKey (dispatchedVolatile
              (queryVolatile store kuzzleRef none pid sname).1 kuzzleRef
              (some m2) pid sname) sdkInstanceIdKey = some pid
            ∧ lookupKey (dispatchedVolatile
                (queryVolatile store kuzzleRef none pid sname).1 kuzzleRef
                (some m2) pid sname) sdkNameKey = some sname) := by
  have hNI : sdkNameKey ≠ sdkInstanceIdKey := by decide
  have hIN : sdkInstanceIdKey ≠ sdkNameKey := by decide
  have hnoop : mergeDefaults kuzzleRef kuzzleRef store
      (keys (getObj store kuzzleRef)) = store :=
    mergeDefaults_noop kuzzleRef _ store
      (fun k hk => JSMap.lookupKey_isSome_of_mem_keys _ k hk)
  have hq : queryVolatile store kuzzleRef none pid sname
      = (setMarker (setMarker (mergeDefaults kuzzleRef kuzzleRef store
          (keys (getObj store kuzzleRef))) kuzzleRef sdkInstanceIdKey pid)
          kuzzleRef sdkNameKey sname, kuzzleRef) := rfl
  have hq2 : queryVolatile store kuzzleRef none pid sname
      = (setMarker (setMarker store kuzzleRef sdkInstanceIdKey pid)
          kuzzleRef sdkNameKey sname, kuzzleRef) := by
    rw [hq, hnoop]
  have h3I : lookupKey
      (getObj (setMarker store kuzzleRef sdkInstanceIdKey pid) kuzzleRef)
      sdkInstanceIdKey = some pid :=
    lookupKey_setMarker_none store kuzzleRef _ pid hI
  have h3N : lookupKey
      (getObj (setMarker store kuzzleRef sdkInstanceIdKey pid) kuzzleRef)
      sdkNameKey = none := by
    rw [lookupKey_setMarker_ne _ _ _ _ pid hNI]
    exact hN
  have h4N : lookupKey
      (getObj (setMarker (setMarker store kuzzleRef sdkInstanceIdKey pid)
        kuzzleRef sdkNameKey sname) kuzzleRef) sdkNameKey = some sname :=
    lookupKey_setMarker_none _ kuzzleRef _ sname h3N
  have h4I : lookupKey
      (getObj (setMarker (setMarker store kuzzleRef sdkInstanceIdKey pid)
        kuzzleRef sdkNameKey sname) kuzzleRef) sdkInstanceIdKey
      = some pid := by
    rw [lookupKey_setMarker_ne _ _ _ _ sname hIN]
    exact h3I
  have hdef : defaultsAfterQuery store kuzzleRef none pid sname
      = getObj (setMarker (setMarker store kuzzleRef sdkInstanceIdKey pid)
          kuzzleRef sdkNameKey sname) kuzzleRef := by
    unfold defaultsAfterQuery
    rw [hq2]
  refine ⟨by rw [hq2], by rw [hdef]; exact h4I, by rw [hdef]; exact h4N,
    ?_, ?_⟩
  · intro heq
    have := congrArg (fun m => lookupKey m sdkInstanceIdKey) heq
    simp only [hdef, h4I, hI] at this
    rw [hdef] at heq
    have := congrArg (fun m => lookupKey m sdkInstanceIdKey) heq
    simp only [h4I, hI] at this
    exact Option.noConfusion this
  · intro m2 hm2I hm2N
    have hwf' : kuzzleRef
        ≠ (setMarker (setMarker store kuzzleRef sdkInstanceIdKey pid)
            kuzzleRef sdkNameKey sname).nextRef := by
      show kuzzleRef ≠ store.nextRef
      omega
    have h := dispatched_lookup_marker
      (setMarker (setMarker store kuzzleRef sdkInstanceIdKey pid)
        kuzzleRef sdkNameKey sname) kuzzleRef m2 pid sname hwf'
      hm2I hm2N h4I h4N
    rw [hq2]
    exact h

/-- C6 (amended): for requests carrying their own volatile map, the
defaults-merge of `query()` never overwrites a caller-supplied key other
than the two markers (and keeps even the markers when the caller-supplied
value is truthy); but the `sdkInstanceId`/`sdkName` marker assignments use
JavaScript `||`, so a falsy caller-supplied marker value (null, false, 0,
empty string) is replaced; the dispatched volatile always carries truthy
`sdkInstanceId` and `sdkName` values provided the protocol id and SDK name
are truthy. -/
theorem c6_volatile_merge (store : JSObjStore) (kuzzleRef : Nat)
    (mc : JSObj) (pid sname : JSValue) :
    (∀ k v, lookupKey mc k = some v → k ≠ sdkInstanceIdKey →
        k ≠ sdkNameKey →
        lookupKey (dispatchedVolatile store kuzzleRef (some mc) pid sname) k
          = some v)
      ∧ (∀ k v, lookupKey mc k = some v → v.truthy = true →
          lookupKey (dispatchedVolatile store kuzzleRef (some mc) pid sname)
            k = some v)
      ∧ (pid.truthy = true → ∃ v,
          lookupKey (dispatchedVolatile store kuzzleRef (some mc) pid sname)
              sdkInstanceIdKey = some v ∧ v.truthy = true)
      ∧ (sname.truthy = true → ∃ v,
          lookupKey (dispatchedVolatile store kuzzleRef (some mc) pid sname)
              sdkNameKey = some v ∧ v.truthy = true) := by
  have hNI : sdkNameKey ≠ sdkInstanceIdKey := by decide
  have hIN : sdkInstanceIdKey ≠ sdkNameKey := by decide
  have hrfl : dispatchedVolatile store kuzzleRef (some mc) pid sname
      = getObj
          (setMarker
            (setMarker
              (mergeDefaults kuzzleRef (allocObj store mc).2
                (allocObj store mc).1
                (keys (getObj (allocObj store mc).1 kuzzleRef)))
              (allocObj store mc).2 sdkInstanceIdKey pid)
            (allocObj store mc).2 sdkNameKey sname)
          (allocObj store mc).2 := rfl
  have h2 : (allocObj store mc).2 = store.nextRef := rfl
  rw [h2] at hrfl
  have hbase : getObj (allocObj store mc).1 store.nextRef = mc :=
    getObj_allocObj_self store mc
  have hmerge : ∀ k v, lookupKey mc k = some v →
      lookupKey (getObj (mergeDefaults kuzzleRef store.nextRef
        (allocObj store mc).1
        (keys (getObj (allocObj store mc).1 kuzzleRef)))
        store.nextRef) k = some v := by
    intro k v hv
    exact mergeDefaults_lookup_some kuzzleRef store.nextRef _ _ k v
      (by rw [hbase]; exact hv)
  refine ⟨?_, ?_, ?_, ?_⟩
  · intro k v hv hkI hkN
    rw [hrfl]
    rw [lookupKey_setMarker_ne _ _ _ _ sname hkN]
    rw [lookupKey_setMarker_ne _ _ _ _ pid hkI]
    exact hmerge k v hv
  · intro k v hv htr
    by_cases hkI : k = sdkInstanceIdKey
    · subst hkI
      rw [hrfl]
      rw [lookupKey_setMarker_ne _ _ _ _ sname hIN]
      rw [lookupKey_setMarker_some _ _ _ pid v (hmerge _ v hv)]
      rw [htr]
      simp
    · by_cases hkN : k = sdkNameKey
      · subst hkN
        rw [hrfl]
        have h1 : lookupKey
            (getObj (setMarker (mergeDefaults kuzzleRef store.nextRef
              (allocObj store mc).1
              (keys (getObj (allocObj store mc).1 kuzzleRef)))
              store.nextRef sdkInstanceIdKey pid) store.nextRef)
            sdkNameKey = some v := by
          rw [lookupKey_setMarker_ne _ _ _ _ pid hNI]
          exact hmerge _ v hv
        rw [lookupKey_setMarker_some _ _ _ sname v h1]
        rw [htr]
        simp
      · rw [hrfl]
        rw [lookupKey_setMarker_ne _ _ _ _ sname hkN]
        rw [lookupKey_setMarker_ne _ _ _ _ pid hkI]
        exact hmerge k v hv
  · intro hp
    rw [hrfl]
    cases hM : lookupKey (getObj (mergeDefaults kuzzleRef store.nextRef
        (allocObj store mc).1
        (keys (getObj (allocObj store mc).1 kuzzleRef)))
        store.nextRef) sdkInstanceIdKey with
    | none =>
      refine ⟨pid, ?_, hp⟩
      rw [lookupKey_setMarker_ne _ _ _ _ sname hIN]
      exact lookupKey_setMarker_none _ _ _ pid hM
    | some w =>
      by_cases hw : w.truthy = true
      · refine ⟨w, ?_, hw⟩
        rw [lookupKey_setMarker_ne _ _ _ _ sname hIN]
        rw [lookupKey_setMarker_some _ _ _ pid w hM]
        rw [hw]
        simp
      · refine ⟨pid, ?_, hp⟩
        rw [lookupKey_setMarker_ne _ _ _ _ sname hIN]
        rw [lookupKey_setMarker_some _ _ _ pid w hM]
        simp [hw]
  · intro hs
    rw [hrfl]
    cases hM : lookupKey
        (getObj (setMarker (mergeDefaults kuzzleRef store.nextRef
          (allocObj store mc).1
          (keys (getObj (allocObj store mc).1 kuzzleRef)))
          store.nextRef sdkInstanceIdKey pid) store.nextRef)
        sdkNameKey with
    | none =>
      refine ⟨sname, ?_, hs⟩
      exact lookupKey_setMarker_none _ _ _ sname hM
    | some w =>
      by_cases hw : w.truthy = true
      · refine ⟨w, ?_, hw⟩
        rw [lookupKey_setMarker_some _ _ _ sname w hM]
        rw [hw]
        simp
      · refine ⟨sname, ?_, hs⟩
        rw [lookupKey_setMarker_some _ _ _ sname w hM]
        simp [hw]

/-- C6 counterexample: a caller-supplied `volatile` of `sdkName: null` is
overwritten by the marker assignment (`request.volatile.sdkName =
request.volatile.sdkName || this.sdkName` — `null` is falsy), so "per-call
wins for every key" fails on the code. -/
theorem c6_counterexample :
    lookupKey c6CallerVolatile sdkNameKey = some JSValue.null
      ∧ lookupKey (dispatchedVolatile c6Store 0 (some c6CallerVolatile)
          protoIdVal sdkNameVal) sdkNameKey = some sdkNameVal
      ∧ sdkNameVal ≠ JSValue.null := by
  decide

/-- Witness for `c6_volatile_merge` at a concrete caller map. -/
theorem c6_volatile_merge_witness :
    lookupKey (dispatchedVolatile c6Store 0 (some c6wCaller) protoIdVal
        sdkNameVal) fooKey = some (JSValue.num 42)
      ∧ ∃ v, lookupKey (dispatchedVolatile c6Store 0 (some c6wCaller)
          protoIdVal sdkNameVal) sdkNameKey = some v ∧ v.truthy = true :=
  ⟨(c6_volatile_merge c6Store 0 c6wCaller protoIdVal sdkNameVal).1 fooKey
      (JSValue.num 42) (by decide) (by decide) (by decide),
   (c6_volatile_merge c6Store 0 c6wCaller protoIdVal sdkNameVal).2.2.2
      (by decide)⟩

/-- Witness for `c10_volatile_alias_mutation` at a concrete heap: the
defaults object at address 0 is empty, the request carries no volatile, and
after the call `kuzzle.volatile` itself carries the markers. -/
theorem c10_volatile_alias_mutation_witness :
    (queryVolatile c6Store 0 none protoIdVal sdkNameVal).2 = 0
      ∧ lookupKey (defaultsAfterQuery c6Store 0 none protoIdVal sdkNameVal)
          sdkInstanceIdKey = some protoIdVal
      ∧ lookupKey (defaultsAfterQuery c6Store 0 none protoIdVal sdkNameVal)
          sdkNameKey = some sdkNameVal := by
  have h := c10_volatile_alias_mutation c6Store 0 protoIdVal sdkNameVal
    (by decide) (by decide) (by decide)
  exact ⟨h.1, h.2.1, h.2.2.1⟩

/-! ### Reconnection theorems (claim C4) -/

/-- C4: on a transport `reconnect` event, if a user was previously logged
in and the held token is invalid with no authenticator configured, the SDK
emits `reconnectionError` (and nothing else), marks itself logged out,
performs a full disconnect (`protocol.close()`), does not replay the
offline queue, and does not emit `reconnected`; and `tryReAuthenticate`
never returns a rejected promise — for every environment and state, its
catch-all converts each body outcome into a boolean resolution. -/
theorem c4_reconnect_failure (env : ReconnectEnv) (st : KState)
    (hrip : st.reconnectInProgress = false)
    (hlog : st.loggedIn = true)
    (htok : env.checkToken = .ok false)
    (hauth : env.hasAuthenticator = false) :
    ((reconnect env st).2 = [SdkEvent.reconnectionError]
      ∧ (reconnect env st).1.loggedIn = false
      ∧ (reconnect env st).1.protocolClosed = true
      ∧ SdkEvent.playQueueRun ∉ (reconnect env st).2
      ∧ SdkEvent.reconnected ∉ (reconnect env st).2)
      ∧ (∀ env2 st2, (tryReAuthenticateResult env2 st2).isOk = true) := by
  constructor
  · obtain ⟨lg, qu, aq, ar, rip, pc⟩ := st
    simp only at hrip hlog
    subst hrip
    subst hlog
    cases aq <;> cases ar <;> cases qu <;> cases pc <;>
      simp [reconnect, tryReAuthenticate, tryReAuthenticateBody, htok, hauth]
  · intro env2 st2
    unfold tryReAuthenticateResult
    cases h : tryReAuthenticateBody env2
        { st2 with reconnectInProgress := true } with
    | ok r =>
      obtain ⟨b, st', evs⟩ := r
      simp [h, Except.isOk, Except.toBool]
    | error st' => simp [h, Except.isOk, Except.toBool]

/-- Witness for `c4_reconnect_failure`: invalid token, no authenticator,
previously logged in. -/
theorem c4_reconnect_failure_witness :
    (reconnect c4Env c4State).2 = [SdkEvent.reconnectionError]
      ∧ (reconnect c4Env c4State).1.loggedIn = false
      ∧ (reconnect c4Env c4State).1.protocolClosed = true := by
  have h := c4_reconnect_failure c4Env c4State (by decide) (by decide)
    (by decide) (by decide)
  exact ⟨h.1.1, h.1.2.1, h.1.2.2.1⟩

/-! ### `connect()` listener registration theorems (claim C7) -/

/-- C7 counterexample: two `connect()` calls while the transport is not
ready register the `connect` transport listener twice — "registered exactly
once across any number of connect() calls" fails on the code, which calls
`protocol.addListener` on every pass of the non-ready branch. -/
theorem c7_counterexample :
    ((connect false (connect false c7Start)).listeners.count
        connectEventName = 2)
      ∧ ¬((connect false (connect false c7Start)).listeners.count
          connectEventName = 1) := by
  decide

/-- C7 (amended): `connect()` is a no-op when the transport already reports
ready; every `connect()` call that proceeds past the ready check registers
each transport event listener exactly once more — so the listeners are
registered exactly once overall only when exactly one `connect()` call
proceeds past the check, and repeated non-ready calls register
duplicates. -/
theorem c7_connect_listeners (st : ConnectState) :
    connect true st = st
      ∧ (∀ e, e ∈ transportListeners →
          (connect false st).listeners.count e
            = st.listeners.count e + 1)
      ∧ (st.listeners = [] → ∀ e ∈ transportListeners,
          (connect false st).listeners.count e = 1) := by
  have hlist : (connect false st).listeners
      = st.listeners ++ transportListeners := by
    cases haq : st.autoQueue <;> simp [connect, haq]
  have hone : ∀ e ∈ transportListeners, transportListeners.count e = 1 := by
    decide
  refine ⟨by simp [connect], ?_, ?_⟩
  · intro e he
    rw [hlist, List.count_append, hone e he]
  · intro hemp e he
    rw [hlist, List.count_append, hone e he, hemp]
    rfl

/-- Witness for `c7_connect_listeners`: from a fresh state, one non-ready
`connect()` registers the `connect` listener exactly once. -/
theorem c7_connect_listeners_witness :
    connect true c7Start = c7Start
      ∧ (connect false c7Start).listeners.count connectEventName = 1 :=
  ⟨(c7_connect_listeners c7Start).1,
   (c7_connect_listeners c7Start).2.2 (by decide) connectEventName
     (by decide)⟩

/-! ### Observer theorems (claims C2 and C9) -/

/-- C9: a `write` notification whose (index, collection, id) is not
tracked is not ignored — the handler throws, because it unconditionally
reads `rtDocument._source` on the result of the map lookup, which is
`undefined` for an untracked id. -/
theorem c9_write_untracked_throws (n : DocumentNotification)
    (newRoomId : String) (st : ObserverState)
    (hev : n.event = writeEventName)
    (hun : lookupKey st.documents
      (documentUrn n.index n.collection n.resultId) = none) :
    notificationHandler n newRoomId st = .error () := by
  have hne : n.event ≠ deleteEventName := by rw [hev]; decide
  simp [notificationHandler, hev, hun, hne]

/-- Witness for `c9_write_untracked_throws`: an observer tracking nothing
receives a `write` notification. -/
theorem c9_write_untracked_throws_witness :
    notificationHandler c9Notif room2 c9State = .error () :=
  c9_write_untracked_throws c9Notif room2 c9State (by decide) (by decide)

/-- C2 (evaluation at the failing input): delivering a `delete`
notification for the only tracked document of a bucket with an active room
marks the shared realtime document deleted and removes it from tracking and
from its bucket (the now-empty bucket is removed from the collection map),
but issues NO realtime call at all — the action list is empty, so in
particular no unsubscribe of the bucket's room `room-1` is issued: the
handler deletes the bucket from `documentsByCollection` before calling
`resubscribe`, so `resubscribe` finds no bucket and resolves immediately,
although it contains an explicit teardown branch (empty bucket with a
`roomId`) for exactly this situation.  The room subscription leaks. -/
theorem c2_delete_no_unsubscribe :
    notificationHandler c2DeleteNotif room2 c2State
        = .ok (c2FinalState, [], some c2DeletedDoc)
      ∧ c2FinalState.documents = []
      ∧ c2FinalState.documentsByCollection = []
      ∧ c2DeletedDoc.deleted = true := by
  decide

/-! ### Search cursor theorems (claim C8) -/

/-- C8 counterexample: in the repository test's scenario (`total = 30`,
first page of 2 hits, `from = 2`, `size = 2`, no scroll or sort), `next()`
dispatches a follow-up request whose `from` is `2` — the number of hits
already fetched, as the test asserts — and not `from + size = 4` as the
claim states. -/
theorem c8_counterexample :
    next c8Cursor = NextOutcome.sendRequest (c8ExpectedQuery c8Cursor 2)
      ∧ (c8ExpectedQuery c8Cursor 2).from_ = some 2
      ∧ (c8ExpectedQuery c8Cursor 2).from_ ≠ some 4 := by
  decide

/-- C8 (amended): for every cursor whose originating request carried a page
size and an offset and no scroll or sort, `next()` returns no further
results immediately and without any network call when `from + size >=
total` (and likewise when every hit was already fetched), and otherwise
resubmits the search with the same size and with `from` set to the
cumulative number of hits already fetched — e.g. with `total = 30`, a first
page of 2 hits at `from = 2`, `size = 2` leads `next()` to request
`from = 2`, `size = 2`. -/
theorem c8_next_from_size (c : SearchCursor) (sz f : Int)
    (hscroll : c.scroll = none) (hsort : c.hasSort = false)
    (hsize : c.size = some sz) (hsz : sz ≠ 0) (hfrom : c.from_ = some f) :
    (f + sz ≥ c.total → next c = NextOutcome.noMore)
      ∧ (c.fetched ≥ c.total → next c = NextOutcome.noMore)
      ∧ (c.fetched < c.total → f + sz < c.total →
          next c = NextOutcome.sendRequest (c8ExpectedQuery c sz)) := by
  have hbne : (sz != 0) = true := by simpa using hsz
  refine ⟨?_, ?_, ?_⟩
  · intro hterm
    by_cases hf : c.fetched ≥ c.total
    · simp [next, hf]
    · simp [next, hf, hscroll, hsize, hsort, hfrom, hbne, hterm,
        c8ExpectedQuery]
  · intro hf
    simp [next, hf]
  · intro hf hterm
    have hf' : ¬(c.fetched ≥ c.total) := by omega
    have hterm' : ¬(f + sz ≥ c.total) := by omega
    simp [next, hf', hscroll, hsize, hsort, hfrom, hbne, hterm',
      c8ExpectedQuery]

/-- Witness for `c8_next_from_size`: the repository test's two from/size
cases — `from = 30` resolves to no further results without a network call,
`from = 2` dispatches the follow-up request with `from = 2`. -/
theorem c8_next_from_size_witness :
    next c8TerminalCursor = NextOutcome.noMore
      ∧ next c8Cursor
          = NextOutcome.sendRequest (c8ExpectedQuery c8Cursor 2) :=
  ⟨(c8_next_from_size c8TerminalCursor 2 30 (by decide) (by decide)
      (by decide) (by decide) (by decide)).1 (by decide),
   (c8_next_from_size c8Cursor 2 2 (by decide) (by decide) (by decide)
      (by decide) (by decide)).2.2 (by decide) (by decide)⟩

end KuzzleSdk
